import Mathlib

/-
Shallow embedding of the osysHome-ESPHome plugin (files `__init__.py`,
`api_client.py`, `utils.py`) and verification of the frozen claims about it.

Modelling conventions:
 - Python floats are modelled as rationals (all arithmetic reaching the
   claims is exact on the inputs involved);
 - timestamp columns (discovered_at, last_updated, last_seen) are abstracted
   away: no claim mentions them and they never influence control flow;
 - database rows are association-list tables; SQLAlchemy queries become
   list filters, `.first()` becomes `List.find?`/`List.findIdx?`, and
   `one_or_none` raising MultipleResultsFound becomes `Except.error`;
 - fire-and-forget side effects (updateProperty, callMethodThread,
   removeLinkFromObject, protocol commands, WebSocket broadcasts) are
   reified as values returned by the embedded functions.
-/

/-- Values carried in entity state payloads: Python booleans, numbers
(ints/floats as rationals), strings, None, and float NaN. -/
inductive Value where
  | bool (b : Bool)
  | num (q : ℚ)
  | str (s : String)
  | null
  | nan
deriving DecidableEq

/-- Value of one hexadecimal digit character, as accepted by Python
int(s, 16) (both letter cases). -/
def hexDigitVal (c : Char) : Option Nat :=
  if 48 ≤ c.toNat ∧ c.toNat ≤ 57 then some (c.toNat - 48)
  else if 97 ≤ c.toNat ∧ c.toNat ≤ 102 then some (c.toNat - 97 + 10)
  else if 65 ≤ c.toNat ∧ c.toNat ≤ 70 then some (c.toNat - 65 + 10)
  else none

/-- Parse two hexadecimal digits: int(hex_str[i : i + 2], 16). -/
def hexPairVal (c1 c2 : Char) : Option Nat :=
  match hexDigitVal c1, hexDigitVal c2 with
  | some h, some l => some (16 * h + l)
  | _, _ => none

/-- Body of utils.hex_to_rgb after the '#' strip: exactly six hex digits
split into three channel pairs, anything else raises (none). -/
def hexToRgbCore (cs : List Char) : Option (Nat × Nat × Nat) :=
  match cs with
  | [c1, c2, c3, c4, c5, c6] =>
    match hexPairVal c1 c2, hexPairVal c3 c4, hexPairVal c5 c6 with
    | some r, some g, some b => some (r, g, b)
    | _, _, _ => none
  | _ => none

/-- utils.hex_to_rgb: lstrip("#") then parse six hex digits; a ValueError
(wrong length or bad digit) is none. -/
def hex_to_rgb (s : String) : Option (Nat × Nat × Nat) :=
  hexToRgbCore (s.toList.dropWhile (fun c => c == '#'))

/-- utils.hex_to_rgb_float: each channel divided by 255.0. -/
def hex_to_rgb_float (s : String) : Option (ℚ × ℚ × ℚ) :=
  (hex_to_rgb s).map (fun t => ((t.1 : ℚ) / 255, (t.2.1 : ℚ) / 255, (t.2.2 : ℚ) / 255))

/-- Uppercase hexadecimal digit character for d < 16. -/
def hexDigitChar (d : Nat) : Char :=
  if d < 10 then Char.ofNat ('0'.toNat + d)
  else Char.ofNat ('A'.toNat + d - 10)

/-- Hexadecimal digits of a natural number, uppercase, most significant
first, no padding (n = 0 gives "0"). -/
def natHexDigits (n : Nat) : List Char :=
  if n < 16 then [hexDigitChar n]
  else natHexDigits (n / 16) ++ [hexDigitChar (n % 16)]
decreasing_by exact Nat.div_lt_self (by omega) (by omega)

/-- Python format "{n:02X}": pad to overall width 2 (sign included). -/
def format02X (n : Int) : List Char :=
  if n < 0 then '-' :: natHexDigits n.natAbs
  else if (natHexDigits n.toNat).length < 2 then '0' :: natHexDigits n.toNat
  else natHexDigits n.toNat

/-- Python round(x) to the nearest integer, ties to even. -/
def roundHalfEven (q : ℚ) : Int :=
  let f := ⌊q⌋
  let r := q - f
  if r < 1/2 then f
  else if 1/2 < r then f + 1
  else if f % 2 = 0 then f else f + 1

/-- Python round(x, n): round to n decimal digits, ties to even. -/
def pyRound (q : ℚ) (n : Int) : ℚ :=
  (roundHalfEven (q * 10 ^ n) : ℚ) / 10 ^ n

/-- utils.rgb_to_hex: "{r:02X}{g:02X}{b:02X}". -/
def rgb_to_hex (r g b : Int) : String :=
  String.mk (format02X r ++ format02X g ++ format02X b)

/-- utils.rgb_float_to_hex: int(round(channel * 255)) per channel, then
rgb_to_hex. -/
def rgb_float_to_hex (r g b : ℚ) : String :=
  rgb_to_hex (roundHalfEven (r * 255)) (roundHalfEven (g * 255)) (roundHalfEven (b * 255))

/-- SQL LIKE matcher (first argument is the pattern) with escape character
backslash, as used by ESPHomeSensor.links.like(pattern, escape='\\'):
'%' matches any run of characters, '_' exactly one, an escaped character
matches itself literally, and the pattern must consume the whole text. -/
def likeMatch : List Char → List Char → Bool
  | [], t => t.isEmpty
  | p :: ps, t =>
    if p = '\\' then
      match ps, t with
      | [], _ => false
      | _ :: _, [] => false
      | q :: qs, c :: cs => c = q && likeMatch qs cs
    else if p = '%' then
      t.tails.any (likeMatch ps)
    else if p = '_' then
      match t with
      | [] => false
      | _ :: cs => likeMatch ps cs
    else
      match t with
      | [] => false
      | c :: cs => c = p && likeMatch ps cs

/-- Wildcard escaping done in changeLinkedProperty:
pattern.replace('%', '\\%').replace('_', '\\_'). -/
def escapeLike (cs : List Char) : List Char :=
  cs.flatMap (fun c => if c = '%' ∨ c = '_' then ['\\', c] else [c])

/-- The LIKE pattern "%" + escaped("obj.prop") + "%" built by
changeLinkedProperty. -/
def queryPattern (obj prop : String) : List Char :=
  '%' :: (escapeLike (obj ++ "." ++ prop).toList ++ ['%'])

/-- json.dumps of the links dict (string keys and values, insertion order,
default ", " and ": " separators), the text the LIKE filter scans. -/
def serializeLinks (links : List (String × String)) : String :=
  "\x7b" ++ String.intercalate ", " (links.map (fun kv => "\"" ++ kv.1 ++ "\": \"" ++ kv.2 ++ "\"")) ++ "\x7d"

/-- Row of the esphome_sensors table. The state column holds the decoded
structure rather than its JSON text; timestamp columns are abstracted away. -/
structure SensorRow where
  device_id : Nat
  entity_key : String
  unique_id : String
  name : String
  entity_type : String
  device_class : Option String
  unit_of_measurement : Option String
  icon : Option String
  state : Option (List (String × Value))
  accuracy_decimals : Option Int
  links : Option (List (String × String))
  enabled : Bool
deriving DecidableEq

/-- Row of the esphome_devices table (columns the claims need). -/
structure DeviceRow where
  id : Nat
  name : String
  host : String
  port : Nat
  enabled : Bool
deriving DecidableEq

/-- One entry of client.entities as consumed by discover_device_sensors:
dict with key, name, type, unique_id and optional attributes, where
entity.get of a missing attribute is none. -/
structure EntityInfo where
  key : Nat
  unique_id : String
  name : String
  type : String
  unit_of_measurement : Option String
  device_class : Option String
  icon : Option String
  accuracy_decimals : Option Int
deriving DecidableEq

/-- The live transport object self.client._connection (none when the field
is None/unset). -/
structure APIConnection where
  is_connected : Bool
deriving DecidableEq

/-- Connection-relevant state of ESPHomeAPIClient. -/
structure ClientState where
  connected : Bool
  connection : Option APIConnection
deriving DecidableEq

/-- ESPHomeAPIClient.is_connected: self.connected and self.client._connection
and self.client._connection.is_connected. -/
def is_connected (st : ClientState) : Bool :=
  st.connected && (match st.connection with
    | some c => c.is_connected
    | none => false)

/-- Whether the underlying protocol call raises when invoked. -/
inductive DispatchOutcome where
  | ok
  | raises
deriving DecidableEq

/-- Protocol commands handed to the aioesphomeapi client. -/
inductive ProtoCmd where
  | switch (key : Nat) (state : Bool)
  | number (key : Nat) (value : ℚ)
  | text (key : Nat) (value : String)
  | light (key : Nat) (state : Bool) (brightness : Option ℚ) (rgb : Option (ℚ × ℚ × ℚ))
deriving DecidableEq

/-- ESPHomeAPIClient.set_switch_state: inside try/except, return False when
not connected, else dispatch switch_command and return True; an exception
from the dispatch is caught, logged, and turned into False. The second
component records the command handed to the transport, if any. -/
def set_switch_state (st : ClientState) (outcome : DispatchOutcome) (key : Nat) (state : Bool) : Bool × Option ProtoCmd :=
  if is_connected st = false then (false, none)
  else
    match outcome with
    | .ok => (true, some (.switch key state))
    | .raises => (false, some (.switch key state))

/-- ESPHomeAPIClient.set_number_state, same shape as set_switch_state. -/
def set_number_state (st : ClientState) (outcome : DispatchOutcome) (key : Nat) (state : ℚ) : Bool × Option ProtoCmd :=
  if is_connected st = false then (false, none)
  else
    match outcome with
    | .ok => (true, some (.number key state))
    | .raises => (false, some (.number key state))

/-- ESPHomeAPIClient.set_text_state, same shape as set_switch_state. -/
def set_text_state (st : ClientState) (outcome : DispatchOutcome) (key : Nat) (state : String) : Bool × Option ProtoCmd :=
  if is_connected st = false then (false, none)
  else
    match outcome with
    | .ok => (true, some (.text key state))
    | .raises => (false, some (.text key state))

/-- ESPHomeAPIClient.set_light_state, same shape as set_switch_state with
optional brightness and rgb arguments. -/
def set_light_state (st : ClientState) (outcome : DispatchOutcome) (key : Nat) (state : Bool) (brightness : Option ℚ) (rgb : Option (ℚ × ℚ × ℚ)) : Bool × Option ProtoCmd :=
  if is_connected st = false then (false, none)
  else
    match outcome with
    | .ok => (true, some (.light key state brightness rgb))
    | .raises => (false, some (.light key state brightness rgb))

/-- Reconnection bookkeeping of ESPHomeAPIClient. -/
structure ReconnectState where
  auto_reconnect : Bool
  reconnect_attempts : Nat
  max_reconnect_attempts : Nat
  reconnect_delay : ℚ
deriving DecidableEq

/-- The pre-jitter delay computed by _schedule_reconnect for a given attempt
number: min(self.reconnect_delay * (2 ** (attempts - 1)), 300). -/
def preJitterDelay (base : ℚ) (attempts : Nat) : ℚ :=
  min (base * 2 ^ (attempts - 1)) 300

/-- ESPHomeAPIClient._schedule_reconnect. loopFrac models
asyncio.get_event_loop().time() % 1. Returns the updated state and the
total delay handed to _reconnect_after_delay (none when the attempt
ceiling was already reached, in which case auto_reconnect is cleared). -/
def schedule_reconnect (st : ReconnectState) (loopFrac : ℚ) : ReconnectState × Option ℚ :=
  if st.max_reconnect_attempts ≤ st.reconnect_attempts then
    ({ st with auto_reconnect := false }, none)
  else
    let n := st.reconnect_attempts + 1
    let delay := preJitterDelay st.reconnect_delay n
    let jitter := delay * (1/10) * (1/2 - loopFrac)
    ({ st with reconnect_attempts := n }, some (delay + jitter))

/-- aioesphomeapi color modes distinguished by _getStates. -/
inductive ColorMode where
  | onOff
  | brightness
  | legacyBrightness
  | rgb
deriving DecidableEq

/-- Inbound state object delivered by subscribe_states: a SensorState, a
LightState, or any other state class (represented by its to_dict output). -/
inductive InboundState where
  | sensorState (key : Nat) (state : Value)
  | lightState (key : Nat) (state : Bool) (colorMode : ColorMode) (brightness red green blue : ℚ)
  | otherState (key : Nat) (fields : List (String × Value))
deriving DecidableEq

/-- The protocol key of an inbound state object. -/
def InboundState.key : InboundState → Nat
  | .sensorState k _ => k
  | .lightState k _ _ _ _ _ _ => k
  | .otherState k _ => k

/-- Final normalization in _getStates: a NaN under the "state" key becomes
None. -/
def normalizeState (vals : List (String × Value)) : List (String × Value) :=
  vals.map (fun kv => if kv.1 = "state" ∧ kv.2 = Value.nan then (kv.1, Value.null) else kv)

/-- ESPHome._getStates: SensorState gives a bare state entry; LightState
gives state, plus brightness * 100 in the brightness-capable color modes,
plus an rgb hex string in RGB mode; anything else is its to_dict with the
key, device_id and missing_state bookkeeping entries stripped. -/
def getStates : InboundState → List (String × Value)
  | .sensorState _ v => normalizeState [("state", v)]
  | .lightState _ st cm br r g b =>
    normalizeState
      ([("state", Value.bool st)]
        ++ (if cm = ColorMode.brightness ∨ cm = ColorMode.legacyBrightness ∨ cm = ColorMode.rgb
            then [("brightness", Value.num (br * 100))] else [])
        ++ (if cm = ColorMode.rgb then [("rgb", Value.str (rgb_float_to_hex r g b))] else []))
  | .otherState _ fs =>
    normalizeState (fs.filter (fun kv => (kv.1 != "key") && (kv.1 != "device_id") && (kv.1 != "missing_state")))

/-- Python truthiness of the accuracy_decimals column: None and 0 are falsy. -/
def truthyAcc : Option Int → Bool
  | none => false
  | some n => decide (n ≠ 0)

/-- Python truthiness of a state value; float NaN is truthy. -/
def truthyVal : Value → Bool
  | .bool b => b
  | .num q => decide (q ≠ 0)
  | .str s => decide (s ≠ "")
  | .null => false
  | .nan => true

/-- round(value, n) under the try/except in on_state_change: numbers round,
bools become 0/1 ints, NaN rounds to NaN, and any other type raises
TypeError which is caught and logged, leaving the value unchanged. -/
def tryRound (n : Int) : Value → Value
  | .num q => .num (pyRound q n)
  | .bool b => .num (if b then 1 else 0)
  | .nan => .nan
  | v => v

/-- The rounding pass of on_state_change over the decoded values:
round only when both accuracy_decimals and the value are truthy. -/
def applyRounding (acc : Option Int) (vals : List (String × Value)) : List (String × Value) :=
  vals.map (fun kv =>
    if truthyAcc acc && truthyVal kv.2 then (kv.1, tryRound (acc.getD 0) kv.2) else kv)

/-- Host object registry: object name → its method-name set, or none when
getObjectByName finds no object. -/
def HostRegistry : Type := String → Option (List String)

/-- Python str.split(sep) for a one-character separator ("".split('.') is
[""], ".".split('.') is ["", ""]). -/
def splitOnChar (sep : Char) : List Char → List (List Char)
  | [] => [[]]
  | c :: cs =>
    let r := splitOnChar sep cs
    if c = sep then [] :: r
    else
      match r with
      | [] => [[c]]
      | h :: t => (c :: h) :: t

/-- The method-or-property test of on_state_change (also _is_method_link in
api.py): "'.' in link and link.count('.') == 1" — equivalently
link.split('.') has exactly two parts — and the object exists and the
member is among its methods. -/
def isMethodRef (host : HostRegistry) (link : String) : Bool :=
  match splitOnChar '.' link.toList with
  | [objName, member] =>
    match host (String.mk objName) with
    | some methods => methods.contains (String.mk member)
    | none => false
  | _ => false

/-- Host-side side effects issued by the link resolver. -/
inductive Effect where
  | updateProp (link : String) (value : Value)
  | callMethod (link : String) (value : Value)
deriving DecidableEq

/-- Link dispatch in on_state_change: a method link goes through
_process_service_link (callMethodThread); otherwise updateProperty. -/
def mkEffect (host : HostRegistry) (link : String) (v : Value) : Effect :=
  if isMethodRef host link then .callMethod link v else .updateProp link v

/-- Lookup in a Python dict modelled as an association list. -/
def lookupAssoc {α : Type} (l : List (String × α)) (k : String) : Option α :=
  match l.find? (fun kv => kv.1 == k) with
  | some kv => some kv.2
  | none => none

/-- Payload of a sensor_update WebSocket broadcast. -/
structure Broadcast where
  device : String
  sensor : String
  state : List (String × Value)
  key : Nat
deriving DecidableEq

/-- Outcome of one on_state_change callback: the sensors table afterwards,
the host-side effects in order, and the broadcast, if any. -/
structure StateChangeResult where
  rows : List SensorRow
  effects : List Effect
  broadcast : Option Broadcast
deriving DecidableEq

/-- ESPHome.on_state_change: find the sensor row by (device id, str(key));
if none, only a debug log happens. Otherwise decode the state, apply the
rounding pass, persist it on the row, dispatch every non-empty link of a
decoded sub-field, and broadcast the decoded values. -/
def on_state_change (host : HostRegistry) (rows : List SensorRow) (device : DeviceRow) (st : InboundState) : StateChangeResult :=
  match rows.findIdx? (fun r => r.device_id == device.id && r.entity_key == toString st.key) with
  | none => ⟨rows, [], none⟩
  | some i =>
    match rows[i]? with
    | none => ⟨rows, [], none⟩
    | some sensor =>
      let values := applyRounding sensor.accuracy_decimals (getStates st)
      let links := sensor.links.getD []
      let effects := values.foldl (fun acc kv =>
        match lookupAssoc links kv.1 with
        | some link => if link = "" then acc else acc ++ [mkEffect host link kv.2]
        | none => acc) []
      ⟨rows.set i { sensor with state := some values },
       effects,
       some ⟨device.name, sensor.name, values, st.key⟩⟩

/-- New sensor row inserted by discover_device_sensors: links and state are
not set, enabled takes the column default True. -/
def mkSensorRow (deviceId : Nat) (e : EntityInfo) : SensorRow :=
  { device_id := deviceId
    entity_key := toString e.key
    unique_id := e.unique_id
    name := e.name
    entity_type := e.type
    device_class := e.device_class
    unit_of_measurement := e.unit_of_measurement
    icon := e.icon
    state := none
    accuracy_decimals := e.accuracy_decimals
    links := none
    enabled := true }

/-- In-place update of the descriptive fields done by
discover_device_sensors for an already-known unique_id. -/
def updateSensorRow (e : EntityInfo) (r : SensorRow) : SensorRow :=
  { r with
    name := e.name
    entity_key := toString e.key
    entity_type := e.type
    unit_of_measurement := e.unit_of_measurement
    device_class := e.device_class
    accuracy_decimals := e.accuracy_decimals
    icon := e.icon }

/-- Predicate of the .where(device_id == …, unique_id == …) query. -/
def matchesKey (deviceId : Nat) (uid : String) (r : SensorRow) : Bool :=
  r.device_id == deviceId && r.unique_id == uid

/-- The columns discover_device_sensors never writes on an existing row (its
updates touch only the descriptive fields name, entity_key, entity_type,
unit_of_measurement, device_class, accuracy_decimals, icon). -/
def sensorFrame (r : SensorRow) :
    Nat × String × Option (List (String × Value)) × Option (List (String × String)) × Bool :=
  (r.device_id, r.unique_id, r.state, r.links, r.enabled)

/-- One loop iteration of discover_device_sensors. Except.error models
one_or_none raising MultipleResultsFound on a duplicated unique_id. -/
def applyDiscovered (deviceId : Nat) (rows : List SensorRow) (e : EntityInfo) : Except Unit (List SensorRow) :=
  match rows.filter (matchesKey deviceId e.unique_id) with
  | [] => .ok (rows ++ [mkSensorRow deviceId e])
  | [_] => .ok (rows.map (fun r => if matchesKey deviceId e.unique_id r then updateSensorRow e r else r))
  | _ => .error ()

/-- The entity loop of discover_device_sensors (autoflush makes rows added
for earlier entities visible to later queries of the same loop). -/
def discoverEntities (deviceId : Nat) (rows : List SensorRow) (entities : List EntityInfo) : Except Unit (List SensorRow) :=
  entities.foldlM (applyDiscovered deviceId) rows

/-- ESPHome.discover_device_sensors: an exception anywhere makes the scoped
session roll back and is caught by the handler, leaving the table as it
was; otherwise the loop result is committed. -/
def discover_device_sensors (deviceId : Nat) (rows : List SensorRow) (entities : List EntityInfo) : List SensorRow :=
  match discoverEntities deviceId rows entities with
  | .ok r => r
  | .error _ => rows

/-- One mDNS discovery result: the dict keys add_discovered_device reads. -/
structure DiscoveredInfo where
  name : String
  host : String
  port : Nat
deriving DecidableEq

/-- Device row created by add_discovered_device: enabled keeps the column
default True, metadata columns stay unset. -/
def mkDeviceRow (id : Nat) (info : DiscoveredInfo) : DeviceRow :=
  { id := id, name := info.name, host := info.host, port := info.port, enabled := true }

/-- ESPHome.add_discovered_device: filter_by(host, port).first(); when a row
exists nothing at all happens, otherwise insert a new device row and start
a connection attempt. The Bool records whether connect_device was called. -/
def add_discovered_device (devices : List DeviceRow) (newId : Nat) (info : DiscoveredInfo) : List DeviceRow × Bool :=
  match devices.find? (fun d => d.host == info.host && d.port == info.port) with
  | some _ => (devices, false)
  | none => (devices ++ [mkDeviceRow newId info], true)

/-- The filter of changeLinkedProperty:
ESPHomeSensor.links.like(escaped_pattern, escape='\\') together with
enabled == True. A NULL links column never satisfies LIKE. -/
def sensorMatches (obj prop : String) (s : SensorRow) : Bool :=
  (match s.links with
   | some lks => likeMatch (queryPattern obj prop) (serializeLinks lks).toList
   | none => false)
  && s.enabled

/-- The sensor.device relationship: foreign-key lookup into the devices
table. -/
def findDevice (devices : List DeviceRow) (id : Nat) : Option DeviceRow :=
  devices.find? (fun d => d.id == id)

/-- Sub-field selection in changeLinkedProperty: start from "state" and take
the last links entry whose value equals "obj.prop". -/
def targetStateKey (obj prop : String) (links : List (String × String)) : String :=
  links.foldl (fun st kv => if kv.2 = obj ++ "." ++ prop then kv.1 else st) "state"

/-- One control dispatched by changeLinkedProperty:
_control_linked_sensor(sensor dict + device name, state sub-field, value). -/
structure Command where
  sensor : SensorRow
  device : String
  stateKey : String
  value : String
deriving DecidableEq

/-- The per-sensor loop of changeLinkedProperty. A sensor whose device row
is missing makes sensor.device None and device.name raise; the outer
except then abandons the rest of the loop, keeping earlier dispatches. -/
def controlLoop (devices : List DeviceRow) (registry : List String) (obj prop val : String) : List SensorRow → List Command
  | [] => []
  | s :: rest =>
    match findDevice devices s.device_id with
    | none => []
    | some dev =>
      (if registry.contains dev.name then
        [⟨s, dev.name, targetStateKey obj prop (s.links.getD []), val⟩]
       else []) ++ controlLoop devices registry obj prop val rest

/-- ESPHome.changeLinkedProperty: sensors matching the LIKE filter and
enabled; zero matches deregisters the reverse link via
removeLinkFromObject (first component), otherwise each matched sensor
whose device name is a key of self.api_clients is dispatched to
_control_linked_sensor (second component). -/
def changeLinkedProperty (devices : List DeviceRow) (registry : List String) (sensors : List SensorRow) (obj prop val : String) : Option (String × String) × List Command :=
  if (sensors.filter (sensorMatches obj prop)).isEmpty then (some (obj, prop), [])
  else (none, controlLoop devices registry obj prop val (sensors.filter (sensorMatches obj prop)))

/-
Theorems.
-/

/-- C1: for every reconnect attempt number n ≥ 1 with base delay 5 s, the
pre-jitter delay of _schedule_reconnect equals min(5 · 2^(n−1), 300), is
monotonically non-decreasing in n, never exceeds 300 seconds, and whenever
the attempt ceiling is not yet reached _schedule_reconnect schedules
exactly this pre-jitter delay for attempt reconnect_attempts + 1, plus
jitter. -/
theorem c1_reconnect_backoff (n : Nat) (h1 : 1 ≤ n) :
    preJitterDelay 5 n = min (5 * 2 ^ (n - 1)) 300 ∧
    preJitterDelay 5 n ≤ preJitterDelay 5 (n + 1) ∧
    preJitterDelay 5 n ≤ 300 ∧
    ∀ (st : ReconnectState) (f : ℚ), st.reconnect_delay = 5 →
      st.reconnect_attempts + 1 = n →
      st.reconnect_attempts < st.max_reconnect_attempts →
      ∃ j, (schedule_reconnect st f).2 = some (preJitterDelay 5 n + j) := by
  refine ⟨rfl, ?_, min_le_right _ _, ?_⟩
  · unfold preJitterDelay
    have hs : n + 1 - 1 = n := by omega
    rw [hs]
    refine min_le_min ?_ le_rfl
    have hp := pow_le_pow_right₀ (by norm_num : (1 : ℚ) ≤ 2) (by omega : n - 1 ≤ n)
    nlinarith
  · intro st f h5 hn hlt
    refine ⟨preJitterDelay 5 n * (1 / 10) * (1 / 2 - f), ?_⟩
    unfold schedule_reconnect
    rw [if_neg (by omega)]
    simp only [h5, hn]

/-- C1 witness: attempt 10 at the concrete pre-failure state (9 failed
attempts, ceiling 10, base delay 5). -/
theorem c1_reconnect_backoff_witness :
    preJitterDelay 5 10 = min (5 * 2 ^ 9) 300 ∧
    preJitterDelay 5 10 ≤ preJitterDelay 5 11 ∧
    preJitterDelay 5 10 ≤ 300 ∧
    ∃ j, (schedule_reconnect ⟨true, 9, 10, 5⟩ 0).2 = some (preJitterDelay 5 10 + j) := by
  obtain ⟨a, b, c, d⟩ := c1_reconnect_backoff 10 (by norm_num)
  exact ⟨a, b, c, d ⟨true, 9, 10, 5⟩ 0 rfl rfl (by norm_num)⟩

/-- C6: each command method returns false (raising nothing — the model is
total) when the session is not connected; when connected it returns true
having dispatched the protocol command without awaiting acknowledgement,
and an exception raised by the dispatch is caught and becomes a false
return with the command still the one attempted. -/
theorem c6_command_methods (st : ClientState) (outcome : DispatchOutcome)
    (key : Nat) (b : Bool) (q : ℚ) (s : String) (br : Option ℚ) (rgb : Option (ℚ × ℚ × ℚ)) :
    (is_connected st = false →
      set_switch_state st outcome key b = (false, none) ∧
      set_number_state st outcome key q = (false, none) ∧
      set_text_state st outcome key s = (false, none) ∧
      set_light_state st outcome key b br rgb = (false, none)) ∧
    (is_connected st = true →
      (set_switch_state st .ok key b = (true, some (.switch key b)) ∧
       set_number_state st .ok key q = (true, some (.number key q)) ∧
       set_text_state st .ok key s = (true, some (.text key s)) ∧
       set_light_state st .ok key b br rgb = (true, some (.light key b br rgb))) ∧
      (set_switch_state st .raises key b = (false, some (.switch key b)) ∧
       set_number_state st .raises key q = (false, some (.number key q)) ∧
       set_text_state st .raises key s = (false, some (.text key s)) ∧
       set_light_state st .raises key b br rgb = (false, some (.light key b br rgb)))) := by
  constructor
  · intro h
    cases outcome <;>
      simp [set_switch_state, set_number_state, set_text_state, set_light_state, h]
  · intro h
    simp [set_switch_state, set_number_state, set_text_state, set_light_state, h]

/-- C6 witness: a disconnected client refuses a switch command; a connected
client dispatches a switch command, and converts a raising light dispatch
into a false return. -/
theorem c6_command_methods_witness :
    set_switch_state ⟨false, none⟩ .ok 1 true = (false, none) ∧
    set_switch_state ⟨true, some ⟨true⟩⟩ .ok 1 true = (true, some (.switch 1 true)) ∧
    set_light_state ⟨true, some ⟨true⟩⟩ .raises 2 false none none = (false, some (.light 2 false none none)) := by
  refine ⟨((c6_command_methods ⟨false, none⟩ .ok 1 true 0 "" none none).1 rfl).1, ?_, ?_⟩
  · exact (((c6_command_methods ⟨true, some ⟨true⟩⟩ .ok 1 true 0 "" none none).2 rfl).1).1
  · exact (((c6_command_methods ⟨true, some ⟨true⟩⟩ .raises 2 false 0 "" none none).2 rfl).2).2.2.2

/-- C10: add_discovered_device deduplicates by network address (host, port):
when a persisted row carries the same address, the table is unchanged and
no connection attempt is made, whatever the advertised name; when no row
matches the address, exactly one new row is inserted and a connection is
attempted. -/
theorem c10_dedup_by_address (devices : List DeviceRow) (newId : Nat) (info : DiscoveredInfo) :
    ((∃ d ∈ devices, d.host = info.host ∧ d.port = info.port) →
      add_discovered_device devices newId info = (devices, false)) ∧
    ((∀ d ∈ devices, d.host ≠ info.host ∨ d.port ≠ info.port) →
      add_discovered_device devices newId info = (devices ++ [mkDeviceRow newId info], true)) := by
  constructor
  · rintro ⟨d, hd, hh, hp⟩
    unfold add_discovered_device
    have hs : (devices.find? (fun d => d.host == info.host && d.port == info.port)).isSome := by
      rw [List.find?_isSome]
      exact ⟨d, hd, by simp [hh, hp]⟩
    obtain ⟨x, hx⟩ := Option.isSome_iff_exists.mp hs
    rw [hx]
  · intro h
    unfold add_discovered_device
    have hn : devices.find? (fun d => d.host == info.host && d.port == info.port) = none := by
      rw [List.find?_eq_none]
      intro d hd
      rcases h d hd with h1 | h1 <;> simp [h1]
    rw [hn]

/-- C10 witness: a second discovery result at the same address (different
name) is ignored; a result at a fresh address is inserted. -/
theorem c10_dedup_by_address_witness :
    add_discovered_device [⟨1, "espA", "10.0.0.2", 6053, true⟩] 2 ⟨"espB", "10.0.0.2", 6053⟩
      = ([⟨1, "espA", "10.0.0.2", 6053, true⟩], false) ∧
    add_discovered_device [⟨1, "espA", "10.0.0.2", 6053, true⟩] 2 ⟨"espB", "10.0.0.3", 6053⟩
      = ([⟨1, "espA", "10.0.0.2", 6053, true⟩, mkDeviceRow 2 ⟨"espB", "10.0.0.3", 6053⟩], true) := by
  constructor
  · exact (c10_dedup_by_address _ 2 _).1 ⟨⟨1, "espA", "10.0.0.2", 6053, true⟩, by simp, rfl, rfl⟩
  · exact (c10_dedup_by_address _ 2 _).2 (by decide)

/-- C7: an inbound state change whose protocol key has no matching sensor
row for the device is logged and dropped: the table is unchanged, no link
is resolved (no host effect), and no broadcast is sent; totality of the
model together with the handler's try/except reflects that no exception
escapes into the session context. -/
theorem c7_unknown_key_dropped (host : HostRegistry) (rows : List SensorRow)
    (device : DeviceRow) (st : InboundState)
    (h : ∀ r ∈ rows, ¬(r.device_id = device.id ∧ r.entity_key = toString st.key)) :
    on_state_change host rows device st = ⟨rows, [], none⟩ := by
  unfold on_state_change
  have hn : rows.findIdx? (fun r => r.device_id == device.id && r.entity_key == toString st.key) = none := by
    rw [List.findIdx?_eq_none_iff]
    intro r hr
    have hr2 := h r hr
    simp only [Bool.and_eq_false_iff, beq_eq_false_iff_ne, ne_eq]
    by_cases h1 : r.device_id = device.id
    · exact Or.inr (fun h2 => hr2 ⟨h1, h2⟩)
    · exact Or.inl h1
  rw [hn]

/-- C7 witness: a state for key 99 against a table holding only key "42" of
the same device. -/
theorem c7_unknown_key_dropped_witness :
    on_state_change (fun _ => none)
      [{ device_id := 1, entity_key := "42", unique_id := "light_1", name := "Light",
         entity_type := "light", device_class := none, unit_of_measurement := none,
         icon := none, state := none, accuracy_decimals := none,
         links := some [("state", "Room.On")], enabled := true }]
      ⟨1, "dev1", "10.0.0.2", 6053, true⟩
      (.sensorState 99 (.num 5)) =
    ⟨[{ device_id := 1, entity_key := "42", unique_id := "light_1", name := "Light",
        entity_type := "light", device_class := none, unit_of_measurement := none,
        icon := none, state := none, accuracy_decimals := none,
        links := some [("state", "Room.On")], enabled := true }], [], none⟩ := by
  exact c7_unknown_key_dropped _ _ _ _ (by decide)

/-- C5: end-to-end light scenario. A light state change with key 42, state
true, brightness 0.5 (brightness color mode), hitting a sensor row with
entity_key "42", links {state: "Room.On", brightness: "Room.Level"} and
accuracy_decimals 0, stores {"state": true, "brightness": 50}, sets host
property Room.On to true and host property Room.Level to 50, and
broadcasts the decoded values. -/
theorem c5_light_end_to_end :
    on_state_change (fun _ => none)
      [{ device_id := 1, entity_key := "42", unique_id := "light_1", name := "Light",
         entity_type := "light", device_class := none, unit_of_measurement := none,
         icon := none, state := none, accuracy_decimals := some 0,
         links := some [("state", "Room.On"), ("brightness", "Room.Level")], enabled := true }]
      ⟨1, "dev1", "10.0.0.2", 6053, true⟩
      (.lightState 42 true .brightness (1/2) 0 0 0)
    = ⟨[{ device_id := 1, entity_key := "42", unique_id := "light_1", name := "Light",
          entity_type := "light", device_class := none, unit_of_measurement := none,
          icon := none,
          state := some [("state", .bool true), ("brightness", .num 50)],
          accuracy_decimals := some 0,
          links := some [("state", "Room.On"), ("brightness", "Room.Level")], enabled := true }],
        [.updateProp "Room.On" (.bool true), .updateProp "Room.Level" (.num 50)],
        some ⟨"dev1", "Light", [("state", .bool true), ("brightness", .num 50)], 42⟩⟩ := by
  have h50 : ((1 : ℚ)/2) * 100 = 50 := by norm_num
  calc
    on_state_change (fun _ => none)
      [{ device_id := 1, entity_key := "42", unique_id := "light_1", name := "Light",
         entity_type := "light", device_class := none, unit_of_measurement := none,
         icon := none, state := none, accuracy_decimals := some 0,
         links := some [("state", "Room.On"), ("brightness", "Room.Level")], enabled := true }]
      ⟨1, "dev1", "10.0.0.2", 6053, true⟩
      (.lightState 42 true .brightness (1/2) 0 0 0)
      = ⟨[{ device_id := 1, entity_key := "42", unique_id := "light_1", name := "Light",
            entity_type := "light", device_class := none, unit_of_measurement := none,
            icon := none,
            state := some [("state", .bool true), ("brightness", .num ((1/2) * 100))],
            accuracy_decimals := some 0,
            links := some [("state", "Room.On"), ("brightness", "Room.Level")], enabled := true }],
          [.updateProp "Room.On" (.bool true), .updateProp "Room.Level" (.num ((1/2) * 100))],
          some ⟨"dev1", "Light", [("state", .bool true), ("brightness", .num ((1/2) * 100))], 42⟩⟩ := rfl
    _ = _ := by rw [h50]

/-- A hexadecimal digit value is below 16. -/
theorem hexDigitVal_lt {c : Char} {d : Nat} (h : hexDigitVal c = some d) : d < 16 := by
  unfold hexDigitVal at h
  split_ifs at h with h1 h2 h3
  · cases h; omega
  · cases h; omega
  · cases h; omega

/-- hexDigitChar inverts hexDigitVal on digit values. -/
theorem hexDigitVal_hexDigitChar : ∀ d, d < 16 → hexDigitVal (hexDigitChar d) = some d := by
  decide

/-- A hexadecimal digit character is not '#'. -/
theorem hexDigitChar_ne_hash : ∀ d, d < 16 → (hexDigitChar d == '#') = false := by
  decide

/-- The character '0' is not '#'. -/
theorem zeroChar_ne_hash : (('0' : Char) == '#') = false := by
  decide

/-- Half-even rounding of an integer is that integer. -/
theorem roundHalfEven_intCast (k : ℤ) : roundHalfEven (k : ℚ) = k := by
  unfold roundHalfEven
  rw [Int.floor_intCast]
  norm_num

/-- Half-even rounding of a natural number cast into ℚ. -/
theorem roundHalfEven_natCast (k : Nat) : roundHalfEven (k : ℚ) = (k : ℤ) := by
  have h := roundHalfEven_intCast (k : ℤ)
  rw [Int.cast_natCast] at h
  exact h

/-- A two-hex-digit pair value is below 256. -/
theorem hexPairVal_lt {c1 c2 : Char} {d : Nat} (h : hexPairVal c1 c2 = some d) : d < 256 := by
  unfold hexPairVal at h
  cases h1 : hexDigitVal c1 with
  | none =>
    rw [h1] at h
    cases h2 : hexDigitVal c2 <;> rw [h2] at h <;> simp at h
  | some a =>
    cases h2 : hexDigitVal c2 with
    | none => rw [h1, h2] at h; simp at h
    | some b =>
      rw [h1, h2] at h
      simp only [Option.some.injEq] at h
      have ha := hexDigitVal_lt h1
      have hb := hexDigitVal_lt h2
      omega

/-- {n:02X} of a channel value below 256 is two characters, re-parses to n,
and does not start with '#'. -/
theorem format02X_spec (n : Nat) (h : n < 256) :
    ∃ c1 c2, format02X (n : Int) = [c1, c2] ∧ hexPairVal c1 c2 = some n ∧ (c1 == '#') = false := by
  by_cases h16 : n < 16
  · refine ⟨'0', hexDigitChar n, ?_, ?_, zeroChar_ne_hash⟩
    · unfold format02X
      rw [if_neg (show ¬((n : Int) < 0) by omega), Int.toNat_natCast]
      unfold natHexDigits
      rw [if_pos h16]
      rfl
    · have h0 : hexDigitVal '0' = some 0 := by decide
      have hd := hexDigitVal_hexDigitChar n h16
      unfold hexPairVal
      rw [h0, hd]
      simp
  · refine ⟨hexDigitChar (n / 16), hexDigitChar (n % 16), ?_, ?_, hexDigitChar_ne_hash _ (by omega)⟩
    · unfold format02X
      rw [if_neg (show ¬((n : Int) < 0) by omega), Int.toNat_natCast]
      unfold natHexDigits
      rw [if_neg h16]
      unfold natHexDigits
      rw [if_pos (by omega : n / 16 < 16)]
      rfl
    · unfold hexPairVal
      rw [hexDigitVal_hexDigitChar _ (by omega), hexDigitVal_hexDigitChar _ (by omega)]
      simp only [Option.some.injEq]
      omega

/-- Encoding three channel values below 256 and parsing the hex string back
recovers them exactly. -/
theorem hex_to_rgb_rgb_to_hex (r g b : Nat) (hr : r < 256) (hg : g < 256) (hb : b < 256) :
    hex_to_rgb (rgb_to_hex (r : Int) (g : Int) (b : Int)) = some (r, g, b) := by
  obtain ⟨r1, r2, hrf, hrp, hrh⟩ := format02X_spec r hr
  obtain ⟨g1, g2, hgf, hgp, _⟩ := format02X_spec g hg
  obtain ⟨b1, b2, hbf, hbp, _⟩ := format02X_spec b hb
  unfold hex_to_rgb rgb_to_hex
  rw [hrf, hgf, hbf]
  have hml : (String.mk ([r1, r2] ++ [g1, g2] ++ [b1, b2])).toList
      = [r1, r2, g1, g2, b1, b2] := rfl
  rw [hml]
  rw [List.dropWhile_cons]
  simp only [hrh, Bool.false_eq_true, if_false]
  show (match hexPairVal r1 r2, hexPairVal g1 g2, hexPairVal b1 b2 with
        | some r, some g, some b => some (r, g, b)
        | _, _, _ => none) = some (r, g, b)
  rw [hrp, hgp, hbp]

/-- Channel bounds recovered from a successful hex parse. -/
theorem hexToRgbCore_bounds {cs : List Char} {r g b : Nat}
    (h : hexToRgbCore cs = some (r, g, b)) : r < 256 ∧ g < 256 ∧ b < 256 := by
  unfold hexToRgbCore at h
  split at h
  · split at h
    case _ hp1 hp2 hp3 =>
      cases h
      exact ⟨hexPairVal_lt hp1, hexPairVal_lt hp2, hexPairVal_lt hp3⟩
    case _ => cases h
  · cases h

/-- C8: hex_to_rgb_float "FF5733" is within 0.01 per channel of
(1.0, 0.341, 0.2), and for every color string that parses as six hex
digits, re-encoding the decoded float triple parses back to channels off
by at most 1 (in fact exactly equal). -/
theorem c8_color_roundtrip :
    (∃ r g b : ℚ, hex_to_rgb_float "FF5733" = some (r, g, b) ∧
      |r - 1| ≤ 1/100 ∧ |g - 341/1000| ≤ 1/100 ∧ |b - 1/5| ≤ 1/100) ∧
    (∀ (s : String) (r0 g0 b0 : Nat), hex_to_rgb s = some (r0, g0, b0) →
      ∃ rf gf bf : ℚ, hex_to_rgb_float s = some (rf, gf, bf) ∧
        ∃ r1 g1 b1 : Nat, hex_to_rgb (rgb_float_to_hex rf gf bf) = some (r1, g1, b1) ∧
          ((r1 : ℤ) - (r0 : ℤ)).natAbs ≤ 1 ∧ ((g1 : ℤ) - (g0 : ℤ)).natAbs ≤ 1 ∧
          ((b1 : ℤ) - (b0 : ℤ)).natAbs ≤ 1) := by
  constructor
  · have hp : hex_to_rgb "FF5733" = some (255, 87, 51) := by decide
    refine ⟨255/255, 87/255, 51/255, ?_, ?_, ?_, ?_⟩
    · unfold hex_to_rgb_float
      rw [hp]
      rfl
    · rw [abs_le]
      constructor <;> norm_num
    · rw [abs_le]
      constructor <;> norm_num
    · rw [abs_le]
      constructor <;> norm_num
  · intro s r0 g0 b0 h
    have hbounds := hexToRgbCore_bounds (by unfold hex_to_rgb at h; exact h)
    obtain ⟨hr, hg, hb⟩ := hbounds
    refine ⟨(r0 : ℚ)/255, (g0 : ℚ)/255, (b0 : ℚ)/255, ?_, ?_⟩
    · unfold hex_to_rgb_float
      rw [h]
      rfl
    · have hr255 : roundHalfEven ((r0 : ℚ)/255 * 255) = (r0 : ℤ) := by
        rw [div_mul_cancel₀ _ (by norm_num : (255 : ℚ) ≠ 0)]
        exact roundHalfEven_natCast r0
      have hg255 : roundHalfEven ((g0 : ℚ)/255 * 255) = (g0 : ℤ) := by
        rw [div_mul_cancel₀ _ (by norm_num : (255 : ℚ) ≠ 0)]
        exact roundHalfEven_natCast g0
      have hb255 : roundHalfEven ((b0 : ℚ)/255 * 255) = (b0 : ℤ) := by
        rw [div_mul_cancel₀ _ (by norm_num : (255 : ℚ) ≠ 0)]
        exact roundHalfEven_natCast b0
      have henc : rgb_float_to_hex ((r0 : ℚ)/255) ((g0 : ℚ)/255) ((b0 : ℚ)/255)
          = rgb_to_hex (r0 : Int) (g0 : Int) (b0 : Int) := by
        unfold rgb_float_to_hex
        rw [hr255, hg255, hb255]
      rw [henc]
      refine ⟨r0, g0, b0, hex_to_rgb_rgb_to_hex r0 g0 b0 hr hg hb, ?_, ?_, ?_⟩ <;> simp

/-- C8 witness: the round trip at "FF5733" itself. -/
theorem c8_color_roundtrip_witness :
    ∃ rf gf bf : ℚ, hex_to_rgb_float "FF5733" = some (rf, gf, bf) ∧
      ∃ r1 g1 b1 : Nat, hex_to_rgb (rgb_float_to_hex rf gf bf) = some (r1, g1, b1) ∧
        ((r1 : ℤ) - ((255 : Nat) : ℤ)).natAbs ≤ 1 ∧ ((g1 : ℤ) - ((87 : Nat) : ℤ)).natAbs ≤ 1 ∧
        ((b1 : ℤ) - ((51 : Nat) : ℤ)).natAbs ≤ 1 :=
  c8_color_roundtrip.2 "FF5733" 255 87 51 (by decide)

/-- One-step unfolding of likeMatch on a non-empty pattern. -/
theorem likeMatch_cons (p : Char) (ps t : List Char) :
    likeMatch (p :: ps) t =
      (if p = '\\' then
        match ps, t with
        | [], _ => false
        | _ :: _, [] => false
        | q :: qs, c :: cs => decide (c = q) && likeMatch qs cs
      else if p = '%' then t.tails.any (likeMatch ps)
      else if p = '_' then
        match t with
        | [] => false
        | _ :: cs => likeMatch ps cs
      else
        match t with
        | [] => false
        | c :: cs => decide (c = p) && likeMatch ps cs) := by
  rw [likeMatch.eq_def]

/-- A lone '%' pattern matches any text. -/
theorem likeMatch_percent_any (t : List Char) : likeMatch ['%'] t = true := by
  rw [likeMatch_cons, if_neg (show ¬('%' = '\\') by decide), if_pos (show '%' = '%' from rfl)]
  rw [List.any_eq_true]
  exact ⟨[], (List.mem_tails _ _).mpr List.nil_suffix, rfl⟩

/-- A '%'-headed pattern matches after skipping any prefix of the text. -/
theorem likeMatch_percent_cons (ps : List Char) (a b : List Char)
    (h : likeMatch ps b = true) : likeMatch ('%' :: ps) (a ++ b) = true := by
  rw [likeMatch_cons, if_neg (show ¬('%' = '\\') by decide), if_pos (show '%' = '%' from rfl)]
  rw [List.any_eq_true]
  exact ⟨b, (List.mem_tails _ _).mpr (List.suffix_append a b), h⟩

/-- The escaped literal followed by '%' matches that literal followed by
anything, for literals without a backslash (the one character the
escaping does not protect). -/
theorem likeMatch_escape_append (p : List Char) (t : List Char) (hp : '\\' ∉ p) :
    likeMatch (escapeLike p ++ ['%']) (p ++ t) = true := by
  induction p with
  | nil => simpa [escapeLike] using likeMatch_percent_any t
  | cons c cs ih =>
    have hc : c ≠ '\\' := fun h => hp (h ▸ List.mem_cons_self c cs)
    have hcs : '\\' ∉ cs := fun h => hp (List.mem_cons_of_mem _ h)
    by_cases hw : c = '%' ∨ c = '_'
    · have he : escapeLike (c :: cs) = '\\' :: c :: escapeLike cs := by
        simp [escapeLike, hw]
      rw [he]
      simp only [List.cons_append]
      rw [likeMatch_cons, if_pos (show '\\' = '\\' from rfl)]
      show (decide (c = c) && likeMatch (escapeLike cs ++ ['%']) (cs ++ t)) = true
      simp [ih hcs]
    · have hw2 : c ≠ '%' := fun h => hw (Or.inl h)
      have hw3 : c ≠ '_' := fun h => hw (Or.inr h)
      have he : escapeLike (c :: cs) = c :: escapeLike cs := by
        simp [escapeLike, hw]
      rw [he]
      simp only [List.cons_append]
      rw [likeMatch_cons, if_neg hc, if_neg hw2, if_neg hw3]
      show (decide (c = c) && likeMatch (escapeLike cs ++ ['%']) (cs ++ t)) = true
      simp [ih hcs]

/-- The changeLinkedProperty query pattern matches any links text that
contains "obj.prop" as a substring, whenever the reference itself
contains no backslash. -/
theorem likeMatch_queryPattern (obj prop : String) (a b : List Char)
    (hnb : '\\' ∉ (obj ++ "." ++ prop).toList) :
    likeMatch (queryPattern obj prop) (a ++ ((obj ++ "." ++ prop).toList ++ b)) = true := by
  unfold queryPattern
  exact likeMatch_percent_cons _ a _ (likeMatch_escape_append _ b hnb)

/-- controlLoop dispatches every sensor of its list whose device row exists
and whose device name is in the registry, provided every sensor in the
list has a device row. -/
theorem controlLoop_mem (devices : List DeviceRow) (registry : List String)
    (obj prop val : String) (l : List SensorRow)
    (hdev : ∀ s ∈ l, (findDevice devices s.device_id).isSome) :
    ∀ s ∈ l, ∀ d, findDevice devices s.device_id = some d → registry.contains d.name = true →
      (⟨s, d.name, targetStateKey obj prop (s.links.getD []), val⟩ : Command)
        ∈ controlLoop devices registry obj prop val l := by
  induction l with
  | nil =>
    intro s hs
    cases hs
  | cons s0 rest ih =>
    intro s hs d hd hreg
    obtain ⟨d0, hd0⟩ := Option.isSome_iff_exists.mp (hdev s0 (List.mem_cons_self s0 rest))
    unfold controlLoop
    rw [hd0]
    rcases List.mem_cons.mp hs with h | h
    · subst h
      rw [hd0] at hd
      cases hd
      rw [List.mem_append]
      left
      rw [if_pos hreg]
      exact List.mem_singleton.mpr rfl
    · rw [List.mem_append]
      right
      exact ih (fun s2 h2 => hdev s2 (List.mem_cons_of_mem _ h2)) s h d hd hreg

/-- C2: when zero enabled sensors match the serialized-links LIKE filter for
"Object.Property", changeLinkedProperty deregisters the reverse link on
the host object and commands nothing; when at least one matches, no
deregistration occurs and every matching sensor whose device is in the
registry of connected clients is commanded (under the FK invariant that
matched sensors' device rows exist). -/
theorem c2_reverse_link_cleanup (devices : List DeviceRow) (registry : List String)
    (sensors : List SensorRow) (obj prop val : String) :
    (sensors.filter (sensorMatches obj prop) = [] →
      changeLinkedProperty devices registry sensors obj prop val = (some (obj, prop), [])) ∧
    (sensors.filter (sensorMatches obj prop) ≠ [] →
      (∀ s ∈ sensors.filter (sensorMatches obj prop), (findDevice devices s.device_id).isSome) →
      (changeLinkedProperty devices registry sensors obj prop val).1 = none ∧
      ∀ s ∈ sensors.filter (sensorMatches obj prop), ∀ d,
        findDevice devices s.device_id = some d → registry.contains d.name = true →
        (⟨s, d.name, targetStateKey obj prop (s.links.getD []), val⟩ : Command)
          ∈ (changeLinkedProperty devices registry sensors obj prop val).2) := by
  constructor
  · intro h
    unfold changeLinkedProperty
    rw [h]
    rfl
  · intro h hdev
    unfold changeLinkedProperty
    rw [if_neg (by simpa [List.isEmpty_iff] using h)]
    exact ⟨rfl, controlLoop_mem devices registry obj prop val _ hdev⟩

/-- C2 witness: an empty table triggers deregistration of Kitchen.Light; a
table with one enabled linked sensor on a connected device prevents it and
commands that sensor. -/
theorem c2_reverse_link_cleanup_witness :
    changeLinkedProperty [⟨1, "dev1", "10.0.0.2", 6053, true⟩] ["dev1"] [] "Kitchen" "Light" "1"
      = (some ("Kitchen", "Light"), []) ∧
    (changeLinkedProperty [⟨1, "dev1", "10.0.0.2", 6053, true⟩] ["dev1"]
      [⟨1, "7", "sw1", "Switch", "switch", none, none, none, none, none,
        some [("state", "Kitchen.Light")], true⟩] "Kitchen" "Light" "1").1 = none ∧
    (⟨⟨1, "7", "sw1", "Switch", "switch", none, none, none, none, none,
        some [("state", "Kitchen.Light")], true⟩, "dev1", "state", "1"⟩ : Command)
      ∈ (changeLinkedProperty [⟨1, "dev1", "10.0.0.2", 6053, true⟩] ["dev1"]
          [⟨1, "7", "sw1", "Switch", "switch", none, none, none, none, none,
            some [("state", "Kitchen.Light")], true⟩] "Kitchen" "Light" "1").2 := by
  have h2 := (c2_reverse_link_cleanup [⟨1, "dev1", "10.0.0.2", 6053, true⟩] ["dev1"]
    [⟨1, "7", "sw1", "Switch", "switch", none, none, none, none, none,
      some [("state", "Kitchen.Light")], true⟩] "Kitchen" "Light" "1").2 (by decide) (by decide)
  refine ⟨(c2_reverse_link_cleanup _ _ _ _ _ _).1 rfl, h2.1, ?_⟩
  have h3 := h2.2 ⟨1, "7", "sw1", "Switch", "switch", none, none, none, none, none,
      some [("state", "Kitchen.Light")], true⟩ (by decide)
    ⟨1, "dev1", "10.0.0.2", 6053, true⟩ (by decide) (by decide)
  have ht : targetStateKey "Kitchen" "Light"
      ((some [("state", "Kitchen.Light")] : Option (List (String × String))).getD []) = "state" := by
    decide
  rw [ht] at h3
  exact h3

/-- Folding the sub-field selection over links none of which equals the
reference leaves the accumulator unchanged. -/
theorem targetStateKey_foldl_init (obj prop : String) (l : List (String × String)) (init : String)
    (h : ∀ kv ∈ l, kv.2 ≠ obj ++ "." ++ prop) :
    l.foldl (fun st kv => if kv.2 = obj ++ "." ++ prop then kv.1 else st) init = init := by
  induction l generalizing init with
  | nil => rfl
  | cons kv rest ih =>
    rw [List.foldl_cons, if_neg (h kv (List.mem_cons_self _ _))]
    exact ih init (fun kv2 h2 => h kv2 (List.mem_cons_of_mem _ h2))

/-- When no links entry equals the changed reference the selected sub-field
defaults to "state". -/
theorem targetStateKey_default (obj prop : String) (l : List (String × String))
    (h : ∀ kv ∈ l, kv.2 ≠ obj ++ "." ++ prop) :
    targetStateKey obj prop l = "state" :=
  targetStateKey_foldl_init obj prop l "state" h

/-- C9: the reverse-link lookup selects by LIKE substring search over the
serialized links text (escaping only % and _): an enabled sensor whose
links text merely contains "obj.prop" inside a longer reference is also
selected, and — since no links entry equals the reference exactly — its
target sub-field defaults to "state", under which it is commanded whenever
its device is connected (reference free of backslash, the one character
the escaping does not protect; device rows present for matched sensors). -/
theorem c9_like_substring_overmatch (devices : List DeviceRow) (registry : List String)
    (sensors : List SensorRow) (obj prop val : String) (s : SensorRow)
    (lks : List (String × String))
    (hmem : s ∈ sensors) (hen : s.enabled = true) (hlks : s.links = some lks)
    (hnb : '\\' ∉ (obj ++ "." ++ prop).toList)
    (a b : List Char)
    (hsub : (serializeLinks lks).toList = a ++ ((obj ++ "." ++ prop).toList ++ b))
    (hne : ∀ kv ∈ lks, kv.2 ≠ obj ++ "." ++ prop) :
    s ∈ sensors.filter (sensorMatches obj prop) ∧
    targetStateKey obj prop (s.links.getD []) = "state" ∧
    ((∀ s2 ∈ sensors.filter (sensorMatches obj prop), (findDevice devices s2.device_id).isSome) →
      ∀ d, findDevice devices s.device_id = some d → registry.contains d.name = true →
        (⟨s, d.name, "state", val⟩ : Command)
          ∈ (changeLinkedProperty devices registry sensors obj prop val).2) := by
  have hlm := likeMatch_queryPattern obj prop a b hnb
  rw [← hsub] at hlm
  have hm : sensorMatches obj prop s = true := by
    simp only [String.toList] at hlm
    simp [sensorMatches, hlks, hlm, hen]
  have hmem2 : s ∈ sensors.filter (sensorMatches obj prop) := List.mem_filter.mpr ⟨hmem, hm⟩
  have htsk : targetStateKey obj prop (s.links.getD []) = "state" := by
    rw [hlks]
    exact targetStateKey_default obj prop lks hne
  refine ⟨hmem2, htsk, ?_⟩
  intro hdev d hd hreg
  unfold changeLinkedProperty
  rw [if_neg (show ¬((sensors.filter (sensorMatches obj prop)).isEmpty = true) by
    simp only [List.isEmpty_iff]
    intro hemp
    rw [hemp] at hmem2
    cases hmem2)]
  have h4 := controlLoop_mem devices registry obj prop val
    (sensors.filter (sensorMatches obj prop)) hdev s hmem2 d hd hreg
  rw [htsk] at h4
  exact h4

/-- C9 witness: changing Kitchen.Light selects and commands a sensor linked
only to Kitchen.Light2, with sub-field "state". -/
theorem c9_like_substring_overmatch_witness :
    (⟨⟨1, "7", "lt2", "Light2", "light", none, none, none, none, none,
        some [("state", "Kitchen.Light2")], true⟩, "dev1", "state", "on"⟩ : Command)
      ∈ (changeLinkedProperty [⟨1, "dev1", "10.0.0.2", 6053, true⟩] ["dev1"]
          [⟨1, "7", "lt2", "Light2", "light", none, none, none, none, none,
            some [("state", "Kitchen.Light2")], true⟩] "Kitchen" "Light" "on").2 := by
  have h := c9_like_substring_overmatch [⟨1, "dev1", "10.0.0.2", 6053, true⟩] ["dev1"]
    [⟨1, "7", "lt2", "Light2", "light", none, none, none, none, none,
      some [("state", "Kitchen.Light2")], true⟩]
    "Kitchen" "Light" "on"
    ⟨1, "7", "lt2", "Light2", "light", none, none, none, none, none,
      some [("state", "Kitchen.Light2")], true⟩
    [("state", "Kitchen.Light2")]
    (by decide) rfl rfl (by decide)
    "\x7b\"state\": \"".toList "2\"\x7d".toList (by decide) (by decide)
  exact h.2.2 (by decide) ⟨1, "dev1", "10.0.0.2", 6053, true⟩ (by decide) (by decide)

/-- One discovery step never changes the frame columns of pre-existing rows
(it appends a new row or rewrites descriptive fields in place). -/
theorem applyDiscovered_frame (d : Nat) (rows : List SensorRow) (e : EntityInfo)
    (res : List SensorRow) (h : applyDiscovered d rows e = .ok res) :
    ∃ tail, res.map sensorFrame = rows.map sensorFrame ++ tail := by
  unfold applyDiscovered at h
  split at h
  · cases h
    exact ⟨[sensorFrame (mkSensorRow d e)], by simp⟩
  · cases h
    refine ⟨[], ?_⟩
    rw [List.append_nil, List.map_map]
    apply List.map_congr_left
    intro r hr
    by_cases hc : matchesKey d e.unique_id r = true
    · simp only [Function.comp_apply, if_pos hc]
      rfl
    · simp [hc]
  · cases h

/-- The whole discovery loop never changes the frame columns of
pre-existing rows. -/
theorem discoverEntities_frame (d : Nat) (es : List EntityInfo) :
    ∀ rows res, discoverEntities d rows es = .ok res →
      ∃ tail, res.map sensorFrame = rows.map sensorFrame ++ tail := by
  induction es with
  | nil =>
    intro rows res h
    cases h
    exact ⟨[], by simp⟩
  | cons e rest ih =>
    intro rows res h
    rw [discoverEntities, List.foldlM_cons] at h
    cases ha : applyDiscovered d rows e with
    | error u =>
      rw [ha] at h
      cases h
    | ok r1 =>
      rw [ha] at h
      obtain ⟨t1, ht1⟩ := applyDiscovered_frame d rows e r1 ha
      obtain ⟨t2, ht2⟩ := ih r1 res h
      exact ⟨t1 ++ t2, by rw [ht2, ht1, List.append_assoc]⟩

/-- C3: discovery reconciliation updates only the descriptive fields of
existing rows: every pre-existing row keeps its position, its identity
(device_id, unique_id), its state, its links mapping and its enabled flag
— whatever the device reports. -/
theorem c3_update_preserves_frame (d : Nat) (rows : List SensorRow) (es : List EntityInfo) :
    rows.length ≤ (discover_device_sensors d rows es).length ∧
    ∀ i (h1 : i < rows.length) (h2 : i < (discover_device_sensors d rows es).length),
      sensorFrame ((discover_device_sensors d rows es).get ⟨i, h2⟩)
        = sensorFrame (rows.get ⟨i, h1⟩) := by
  have hex : ∃ tail, (discover_device_sensors d rows es).map sensorFrame
      = rows.map sensorFrame ++ tail := by
    unfold discover_device_sensors
    cases hd : discoverEntities d rows es with
    | ok r => exact discoverEntities_frame d es rows r hd
    | error u => exact ⟨[], by simp⟩
  obtain ⟨tail, ht⟩ := hex
  have hlen : (discover_device_sensors d rows es).length = rows.length + tail.length := by
    have := congrArg List.length ht
    simpa using this
  constructor
  · omega
  · intro i h1 h2
    have hq : ((discover_device_sensors d rows es).map sensorFrame)[i]?
        = ((rows.map sensorFrame) ++ tail)[i]? := by rw [ht]
    rw [List.getElem?_append_left (by simpa using h1)] at hq
    rw [List.getElem?_map, List.getElem?_map] at hq
    rw [List.getElem?_eq_getElem h2, List.getElem?_eq_getElem h1] at hq
    simp only [Option.map_some', Option.some.injEq] at hq
    simpa [List.get_eq_getElem] using hq

/-- C3 witness: one known entity (same unique_id, new key/name) and one new
entity; the known row keeps state, links and enabled. -/
theorem c3_update_preserves_frame_witness :
    0 < (discover_device_sensors 1
      [⟨1, "7", "sw1", "Old", "switch", none, none, none, none, none,
        some [("state", "Kitchen.Light")], false⟩]
      [⟨9, "sw1", "New", "switch", none, none, none, none⟩,
       ⟨10, "sw2", "Extra", "sensor", none, none, none, none⟩]).length ∧
    sensorFrame ((discover_device_sensors 1
      [⟨1, "7", "sw1", "Old", "switch", none, none, none, none, none,
        some [("state", "Kitchen.Light")], false⟩]
      [⟨9, "sw1", "New", "switch", none, none, none, none⟩,
       ⟨10, "sw2", "Extra", "sensor", none, none, none, none⟩]).get ⟨0, by decide⟩)
      = sensorFrame (⟨1, "7", "sw1", "Old", "switch", none, none, none, none, none,
          some [("state", "Kitchen.Light")], false⟩ : SensorRow) := by
  have h := c3_update_preserves_frame 1
    [⟨1, "7", "sw1", "Old", "switch", none, none, none, none, none,
      some [("state", "Kitchen.Light")], false⟩]
    [⟨9, "sw1", "New", "switch", none, none, none, none⟩,
     ⟨10, "sw2", "Extra", "sensor", none, none, none, none⟩]
  refine ⟨lt_of_lt_of_le (by norm_num) h.1, ?_⟩
  exact h.2 0 (by decide) (by decide)

/-- When the row lookup finds exactly one row, the discovery step is the
in-place descriptive update. -/
theorem applyDiscovered_of_single (d : Nat) (rows : List SensorRow) (e : EntityInfo)
    (x : SensorRow) (hf : rows.filter (matchesKey d e.unique_id) = [x]) :
    applyDiscovered d rows e
      = .ok (rows.map (fun r => if matchesKey d e.unique_id r then updateSensorRow e r else r)) := by
  unfold applyDiscovered
  rw [hf]

/-- The in-place update changes no row's (device_id, unique_id), so any
key-match count is unchanged. -/
theorem countP_map_update (d : Nat) (e : EntityInfo) (uid : String) (rows : List SensorRow) :
    (rows.map (fun r => if matchesKey d e.unique_id r then updateSensorRow e r else r)).countP
        (matchesKey d uid) = rows.countP (matchesKey d uid) := by
  rw [List.countP_map]
  apply List.countP_congr
  intro r hr
  by_cases hc : matchesKey d e.unique_id r = true
  · simp only [Function.comp_apply, if_pos hc]
    exact Iff.rfl
  · simp [hc]

/-- The in-place update changes no row's links column. -/
theorem links_map_update (d : Nat) (e : EntityInfo) (rows : List SensorRow) :
    (rows.map (fun r => if matchesKey d e.unique_id r then updateSensorRow e r else r)).map
        SensorRow.links = rows.map SensorRow.links := by
  rw [List.map_map]
  apply List.map_congr_left
  intro r hr
  by_cases hc : matchesKey d e.unique_id r = true
  · simp only [Function.comp_apply, if_pos hc]
    rfl
  · simp [hc]

/-- After a successful discovery step for an entity, exactly one row carries
its (device, unique_id) key. -/
theorem applyDiscovered_count_self (d : Nat) (rows : List SensorRow) (e : EntityInfo)
    (res : List SensorRow) (h : applyDiscovered d rows e = .ok res) :
    res.countP (matchesKey d e.unique_id) = 1 := by
  unfold applyDiscovered at h
  split at h
  case _ hf =>
    cases h
    rw [List.countP_append]
    have h0 : rows.countP (matchesKey d e.unique_id) = 0 := by
      rw [List.countP_eq_length_filter, hf]
      rfl
    have h1 : [mkSensorRow d e].countP (matchesKey d e.unique_id) = 1 := by
      simp [List.countP_cons, matchesKey, mkSensorRow]
    omega
  case _ x hf =>
    cases h
    rw [countP_map_update, List.countP_eq_length_filter, hf]
    rfl
  case _ => cases h

/-- A successful discovery step keeps any key that already had exactly one
row at exactly one row. -/
theorem applyDiscovered_count_preserved (d : Nat) (rows : List SensorRow) (e : EntityInfo)
    (res : List SensorRow) (uid : String) (h : applyDiscovered d rows e = .ok res)
    (hc : rows.countP (matchesKey d uid) = 1) :
    res.countP (matchesKey d uid) = 1 := by
  unfold applyDiscovered at h
  split at h
  case _ hf =>
    cases h
    rw [List.countP_append]
    by_cases he : e.unique_id = uid
    · exfalso
      subst he
      rw [List.countP_eq_length_filter, hf] at hc
      simp at hc
    · have h1 : [mkSensorRow d e].countP (matchesKey d uid) = 0 := by
        simp [List.countP_cons, matchesKey, mkSensorRow, he]
      omega
  case _ x hf =>
    cases h
    rw [countP_map_update]
    exact hc
  case _ => cases h

/-- The whole loop keeps any key that already had exactly one row at
exactly one row. -/
theorem discoverEntities_count_preserved (d : Nat) (uid : String) (es : List EntityInfo) :
    ∀ rows res, discoverEntities d rows es = .ok res →
      rows.countP (matchesKey d uid) = 1 → res.countP (matchesKey d uid) = 1 := by
  induction es with
  | nil =>
    intro rows res h hc
    cases h
    exact hc
  | cons e rest ih =>
    intro rows res h hc
    rw [discoverEntities, List.foldlM_cons] at h
    cases ha : applyDiscovered d rows e with
    | error u => rw [ha] at h; cases h
    | ok r1 =>
      rw [ha] at h
      exact ih r1 res h (applyDiscovered_count_preserved d rows e r1 uid ha hc)

/-- After a successful run, every reported entity has exactly one row. -/
theorem discoverEntities_post_count (d : Nat) (es : List EntityInfo) :
    ∀ rows res, discoverEntities d rows es = .ok res →
      ∀ e ∈ es, res.countP (matchesKey d e.unique_id) = 1 := by
  induction es with
  | nil =>
    intro rows res h e he
    cases he
  | cons e0 rest ih =>
    intro rows res h e he
    rw [discoverEntities, List.foldlM_cons] at h
    cases ha : applyDiscovered d rows e0 with
    | error u => rw [ha] at h; cases h
    | ok r1 =>
      rw [ha] at h
      rcases List.mem_cons.mp he with h1 | h1
      · subst h1
        exact discoverEntities_count_preserved d e.unique_id rest r1 res h
          (applyDiscovered_count_self d rows e r1 ha)
      · exact ih r1 res h e h1

/-- A run over a table where every reported entity already has exactly one
row succeeds, adds no row, and changes no links. -/
theorem discoverEntities_all_one (d : Nat) (es : List EntityInfo) :
    ∀ rows, (∀ e ∈ es, rows.countP (matchesKey d e.unique_id) = 1) →
      ∃ res, discoverEntities d rows es = .ok res ∧ res.length = rows.length ∧
        res.map SensorRow.links = rows.map SensorRow.links := by
  induction es with
  | nil =>
    intro rows h
    exact ⟨rows, rfl, rfl, rfl⟩
  | cons e rest ih =>
    intro rows h
    have hc := h e (List.mem_cons_self _ _)
    rw [List.countP_eq_length_filter] at hc
    obtain ⟨x, hx⟩ := List.length_eq_one.mp hc
    have ha := applyDiscovered_of_single d rows e x hx
    have hrest : ∀ e2 ∈ rest,
        (rows.map (fun r => if matchesKey d e.unique_id r then updateSensorRow e r else r)).countP
          (matchesKey d e2.unique_id) = 1 := by
      intro e2 h2
      rw [countP_map_update]
      exact h e2 (List.mem_cons_of_mem _ h2)
    obtain ⟨res, hres, hlen, hlinks⟩ := ih _ hrest
    refine ⟨res, ?_, ?_, ?_⟩
    · rw [discoverEntities, List.foldlM_cons, ha]
      exact hres
    · rw [hlen, List.length_map]
    · rw [hlinks, links_map_update]

/-- C4: entity reconciliation is idempotent — a second discovery run with
the same entity list creates no new sensor rows and changes no sensor's
links. -/
theorem c4_discovery_idempotent (d : Nat) (rows : List SensorRow) (es : List EntityInfo) :
    (discover_device_sensors d (discover_device_sensors d rows es) es).length
      = (discover_device_sensors d rows es).length ∧
    (discover_device_sensors d (discover_device_sensors d rows es) es).map SensorRow.links
      = (discover_device_sensors d rows es).map SensorRow.links := by
  cases hd : discoverEntities d rows es with
  | error u =>
    have h1 : discover_device_sensors d rows es = rows := by
      unfold discover_device_sensors
      rw [hd]
    rw [h1, h1]
    exact ⟨rfl, rfl⟩
  | ok r =>
    have h1 : discover_device_sensors d rows es = r := by
      unfold discover_device_sensors
      rw [hd]
    have hcnt := discoverEntities_post_count d es rows r hd
    obtain ⟨res, hres, hlen, hlinks⟩ := discoverEntities_all_one d es r hcnt
    have h2 : discover_device_sensors d r es = res := by
      unfold discover_device_sensors
      rw [hres]
    rw [h1, h2]
    exact ⟨hlen, hlinks⟩
